import Mathlib

/-!
Shallow embedding of `src/download.py` (thin wrappers around Google Earth
Engine / geemap): `download_image`, `download_image_collection`,
`add_image_to_map`, together with the Python runtime behaviours the module
relies on (keyword-argument collision, `os.path` semantics, truthiness,
name shadowing).  External collaborators (the Earth Engine server, the
filesystem, the clock) are abstracted into an `Env` record; the EE image
algebra is kept symbolic so that clipping / mosaicking are observable.
-/

set_option linter.unusedVariables false

namespace GeeDownload

/-- An Earth Engine geometry, identified by the asset it came from. -/
structure Geometry where
  assetId : String
deriving DecidableEq, Repr

/-- Default ROI of both fetch functions:
`ee.FeatureCollection("projects/ee-joshisur231/assets/pa_effectiveness/nepal_boundary").geometry()`. -/
def nepalBoundary : Geometry :=
  ⟨"projects/ee-joshisur231/assets/pa_effectiveness/nepal_boundary"⟩

/-- Symbolic Earth Engine image terms: a plain asset, a clipped image, or the
mosaic of the collection at an address.  Keeping the terms symbolic lets the
theorems observe whether clipping was applied. -/
inductive EEImage where
  | asset (addr : String)
  | clip (img : EEImage) (roi : Geometry)
  | mosaic (collectionAddr : String)
deriving DecidableEq, Repr

/-- A dynamically typed Python value handed to the fetch functions as the
asset address (the code calls `str(...)` on it). -/
inductive PyVal where
  | str (s : String)
  | int (n : Int)
deriving DecidableEq, Repr

/-- Python `str(x)`. -/
def pyStr : PyVal → String
  | .str s => s
  | .int n => toString n

/-- Exceptions the embedded code can raise. -/
inductive Err where
  | eeError (msg : String)
  | typeError (msg : String)
  | fileNotFound (msg : String)
  | attributeError (msg : String)
deriving DecidableEq, Repr

/-- The text Python would interpolate for the exception in the log line. -/
def errText : Err → String
  | .eeError m => m
  | .typeError m => m
  | .fileNotFound m => m
  | .attributeError m => m

/-- Models the composite Python expression `s.split("/")[0]` on a string:
the prefix of `s` strictly before its first `/`, or all of `s` when it has
none (Python `split` always returns a nonempty list, so index 0 is safe). -/
def pySplitSlashHead (s : String) : String :=
  String.mk (s.toList.takeWhile (fun c => c ≠ '/'))

/-- Models `x.split("/")[0]` on an arbitrary Python value (line 125 runs it
before the `str(...)` conversion): a non-string has no `.split` attribute,
so Python raises `AttributeError`. -/
def pyValSplitSlashHead : PyVal → Except Err String
  | .str s => .ok (pySplitSlashHead s)
  | .int n => .error (.attributeError ("int object has no attribute split: " ++ toString n))

/-- The scale value handed to the downloader: either a plain client-side
number obtained through `.getInfo()`, or (mosaic branch, line 54, which has
no `.getInfo()`) a server-side `ee.Number` described by the collection
element whose nominal scale it is. -/
inductive ScaleArg where
  | client (n : Int)
  | server (firstElem : Option EEImage)
deriving DecidableEq, Repr

/-- The external collaborators: Earth Engine resolution results, spatial and
date filters, the filesystem, the home directory and the current clock
reading (already formatted with `%Y-%m-%d_%H-%M-%S`). -/
structure Env where
  resolveCollection : String → List EEImage
  nominalScale : EEImage → Except Err Int
  inBounds : EEImage → Geometry → Bool
  inDate : EEImage → String → String → Bool
  pathExists : String → Bool
  home : String
  now : String

/-- `os.path.exists`: the empty string is never an existing path. -/
def osPathExists (env : Env) (p : String) : Bool :=
  if p = "" then false else env.pathExists p

/-- POSIX `os.path.dirname`: everything up to the last slash, with trailing
slashes stripped unless the head is all slashes. -/
def posixDirname (p : String) : String :=
  let head := (p.toList.reverse.dropWhile (fun c => c ≠ '/')).reverse
  if head ≠ [] ∧ ¬ head.all (fun c => c = '/') then
    String.mk ((head.reverse.dropWhile (fun c => c = '/')).reverse)
  else
    String.mk head

/-- The `FileNotFoundError` that `os.makedirs("")` raises (errno 2). -/
def mkdirEmptyErr : Err := .fileNotFound "No such file or directory: empty path"

/-- `os.makedirs` (recursive create): succeeds on a nonempty path, returning
the directory tree it created; on the empty string the underlying `mkdir`
fails with `FileNotFoundError` (errno 2). -/
def osMakedirs (p : String) : Except Err String :=
  if p = "" then
    .error mkdirEmptyErr
  else
    .ok p

/-- POSIX `os.path.join` for two components (also models
`str(Path.home() / "Downloads")`). -/
def osPathJoin (a b : String) : String :=
  if b.toList.head? = some '/' then b
  else if a = "" ∨ a.toList.getLast? = some '/' then a ++ b
  else a ++ "/" ++ b

/-- One record appended by
`logging.error(f"Error: (<now>): <e> for asset <address>")`. -/
structure LogEntry where
  timestamp : String
  message : String
  assetRef : String
deriving DecidableEq, Repr

/-- The literal line the error logger writes. -/
def LogEntry.render (e : LogEntry) : String :=
  "Error: (" ++ e.timestamp ++ "): " ++ e.message ++ " for asset " ++ e.assetRef

/-- The argument record received by the external routine
`geemap.download_ee_image(image=, filename=, region=, crs=, scale=, **kwargs)`. -/
structure DownloadCall where
  image : EEImage
  filename : String
  region : Geometry
  crs : Option String
  scale : ScaleArg
  kwargs : List (String × String)
deriving DecidableEq, Repr

/-- The argument record received by the external routine
`geemap.download_ee_image_collection(collection=, out_dir=, region=, scale=, **kwargs)`. -/
structure CollectionCall where
  collection : List EEImage
  out_dir : String
  region : Geometry
  scale : Int
  kwargs : List (String × String)
deriving DecidableEq, Repr

/-- Outcome of one fetch call: the value returned or exception re-raised,
the log entries appended, and the directories created (in program order,
all before the external download routine runs, which is the last step). -/
structure FetchResult (α : Type) where
  result : Except Err α
  log : List LogEntry
  fsOps : List String

/-- Keyword names bound explicitly at the `geemap.download_ee_image(...)`
call site (lines 74-81); a `**kwargs` entry reusing one of them makes
Python raise `TypeError` (got multiple values for a keyword argument)
before the routine is entered. -/
def downloadEEImageKeys : List String := ["image", "filename", "region", "crs", "scale"]

/-- Keyword names bound explicitly at the
`geemap.download_ee_image_collection(...)` call site (lines 146-152). -/
def downloadEECollectionKeys : List String := ["collection", "out_dir", "region", "scale"]

/-- First `**kwargs` key colliding with an explicitly bound keyword, if any. -/
def duplicateKw (explicit : List String) (kwargs : List (String × String)) : Option String :=
  (kwargs.find? (fun kv => explicit.contains kv.1)).map (fun kv => kv.1)

/-- The call `geemap.download_ee_image(image=, filename=, region=, crs=,
scale=, **kwargs)`: Python raises `TypeError` on a duplicate keyword,
otherwise the external routine receives the arguments. -/
def callDownloadEEImage (image : EEImage) (filename : String) (region : Geometry)
    (crs : Option String) (scale : ScaleArg) (kwargs : List (String × String)) :
    Except Err DownloadCall :=
  match duplicateKw downloadEEImageKeys kwargs with
  | some k =>
      .error (.typeError ("download_ee_image got multiple values for keyword argument " ++ k))
  | none => .ok ⟨image, filename, region, crs, scale, kwargs⟩

/-- The call `geemap.download_ee_image_collection(collection=, out_dir=,
region=, scale=, **kwargs)` with the same duplicate-keyword rule. -/
def callDownloadEECollection (collection : List EEImage) (out_dir : String)
    (region : Geometry) (scale : Int) (kwargs : List (String × String)) :
    Except Err CollectionCall :=
  match duplicateKw downloadEECollectionKeys kwargs with
  | some k =>
      .error (.typeError ("download_ee_image_collection got multiple values for keyword argument " ++ k))
  | none => .ok ⟨collection, out_dir, region, scale, kwargs⟩

/-- Lines 52-61 of `download_image`: resolve the address into an image, a
scale and a crs.  Both branches rebind the local name `spatial_resolution`
(line 54 without `.getInfo()`, line 60 with it), so the value the caller
supplied for that parameter never reaches this point. -/
def resolveImage (env : Env) (addrS : String) (mosaic_collection : Bool) :
    Except Err (EEImage × ScaleArg × Option String) :=
  if mosaic_collection then
    let image_collection := env.resolveCollection addrS
    let spatial_resolution := ScaleArg.server image_collection.head?
    .ok (EEImage.mosaic addrS, spatial_resolution, some "EPSG:4326")
  else
    match env.nominalScale (EEImage.asset addrS) with
    | .error e => .error e
    | .ok n => .ok (EEImage.asset addrS, ScaleArg.client n, none)

/-- Lines 66-72 resp. 138-144: resolve the output path.  With no path
given, synthesize `<home>/Downloads/<prefix>_<now><ext>` (`ext` is `.tif`
for the single image, empty for the collection directory); with a path
given, create its `os.path.dirname` when it does not exist.  Returns the
path and the directories created. -/
def resolveOutputPath (env : Env) ( image_pfx : String) (ext : String)
    (output_path : Option String) : Except Err (String × List String) :=
  match output_path with
  | none =>
      let downloads_dir := osPathJoin env.home "Downloads"
      .ok (osPathJoin downloads_dir ( image_pfx ++ "_" ++ env.now ++ ext), [])
  | some p =>
      let output_dir := posixDirname p
      if ¬ osPathExists env output_dir then
        match osMakedirs output_dir with
        | .error e => .error e
        | .ok d => .ok (p, [d])
      else
        .ok (p, [])

/-- The Earth Engine error surfaced when the nominal scale is read off the
first element of an empty collection. -/
def emptyCollectionErr : Err :=
  .eeError "Image.projection: Parameter image is required (collection is empty)"

/-- Line 133: `image_collection.first().projection().nominalScale().getInfo()`.
On an empty filtered collection `.first()` has no element and the remote
`.getInfo()` round-trip surfaces that as an Earth Engine error. -/
def firstNominalScaleGetInfo (env : Env) (col : List EEImage) : Except Err Int :=
  match col.head? with
  | none => .error emptyCollectionErr
  | some img => env.nominalScale img

/-- `download_image` (lines 14-84).  The whole body sits in a `try` whose
handler appends one log entry, built from the clock, the exception text and
the (stringified) address, and re-raises the same exception. -/
def download_image (env : Env) (image_asset_address : PyVal) (clip : Bool := true)
    (roi : Geometry := nepalBoundary) (output_path : Option String := none)
    (mosaic_collection : Bool := false) (spatial_resolution : Option Int := none)
    (kwargs : List (String × String) := []) : FetchResult DownloadCall :=
  let addrS := pyStr image_asset_address
  let image_pfx := pySplitSlashHead addrS
  match resolveImage env addrS mosaic_collection with
  | .error e => ⟨.error e, [⟨env.now, errText e, addrS⟩], []⟩
  | .ok (image0, spatial_resolution, crs) =>
      let image := if clip then EEImage.clip image0 roi else image0
      match resolveOutputPath env image_pfx ".tif" output_path with
      | .error e => ⟨.error e, [⟨env.now, errText e, addrS⟩], []⟩
      | .ok (out, fsOps) =>
          match callDownloadEEImage image out roi crs spatial_resolution kwargs with
          | .error e => ⟨.error e, [⟨env.now, errText e, addrS⟩], fsOps⟩
          | .ok call => ⟨.ok call, [], fsOps⟩

/-- `download_image_collection` (lines 86-155).  The nested
`def clip(image): return image.clip(roi)` (lines 122-123) rebinds the local
name `clip`, shadowing the Bool parameter: the `if clip:` test at line 135
sees the function object, which is always truthy, so the map is applied
unconditionally. -/
def download_image_collection (env : Env) (collection_asset_address : PyVal)
    (start_date : String) (end_date : String) (output_path : Option String := none)
    (roi : Geometry := nepalBoundary) (clip : Bool := true) (mosaic : Bool := false)
    (kwargs : List (String × String) := []) : FetchResult CollectionCall :=
  let clipFn : EEImage → EEImage := fun image => EEImage.clip image roi
  let clipTruthy : Bool := true
  let addrS := pyStr collection_asset_address
  match pyValSplitSlashHead collection_asset_address with
  | .error e => ⟨.error e, [⟨env.now, errText e, addrS⟩], []⟩
  | .ok image_pfx =>
      let image_collection :=
        ((env.resolveCollection addrS).filter (fun i => env.inBounds i roi)).filter
          (fun i => env.inDate i start_date end_date)
      match firstNominalScaleGetInfo env image_collection with
      | .error e => ⟨.error e, [⟨env.now, errText e, addrS⟩], []⟩
      | .ok spatial_resolution =>
          let image_collection :=
            if clipTruthy then image_collection.map clipFn else image_collection
          match resolveOutputPath env image_pfx "" output_path with
          | .error e => ⟨.error e, [⟨env.now, errText e, addrS⟩], []⟩
          | .ok (out, fsOps) =>
              match callDownloadEECollection image_collection out roi spatial_resolution kwargs with
              | .error e => ⟨.error e, [⟨env.now, errText e, addrS⟩], fsOps⟩
              | .ok call => ⟨.ok call, [], fsOps⟩

/-- A layer added to the interactive map. -/
inductive MapLayer where
  | raster (source : String) (layer_name : Option String) (opts : List (String × String))
  | eeLayer (ee_object : EEImage) (name : Option String) (opts : List (String × String))
deriving DecidableEq, Repr

/-- The interactive `geemap.Map` object, observed through its layers. -/
structure GeemapMap where
  layers : List MapLayer
deriving DecidableEq, Repr

/-- Python truthiness of an optional string: `None` and the empty string
are falsy. -/
def pyTruthy : Option String → Bool
  | none => false
  | some s => s ≠ ""

/-- `add_image_to_map` (lines 157-175): build a fresh map, add a raster
layer when `image_path` is truthy and an EE layer when
`image_asset_address` is truthy, and return the map. -/
def add_image_to_map (image_path : Option String := none)
    (image_asset_address : Option String := none)
    (layer_name : Option String := none)
    (kwargs : List (String × String) := []) : GeemapMap :=
  let M : GeemapMap := ⟨[]⟩
  let M := if pyTruthy image_path then
      ⟨M.layers ++ [MapLayer.raster (image_path.getD "") layer_name kwargs]⟩
    else M
  let M := if pyTruthy image_asset_address then
      ⟨M.layers ++ [MapLayer.eeLayer (EEImage.asset (image_asset_address.getD "")) layer_name kwargs]⟩
    else M
  M

/-- A concrete environment for witnesses and counterexamples: one image in
every collection, nominal scale 30, filters that pass, every nonempty path
existing. -/
def testEnv : Env where
  resolveCollection := fun _ => [EEImage.asset "IMG0"]
  nominalScale := fun _ => .ok 30
  inBounds := fun _ _ => true
  inDate := fun _ _ _ => true
  pathExists := fun _ => true
  home := "/home/u"
  now := "2026-01-01_00-00-00"

/-- Like `testEnv` but no path exists, so parent directories get created. -/
def mkdirEnv : Env :=
  { testEnv with pathExists := fun _ => false }

/-- Like `testEnv` but every collection resolves to no images. -/
def emptyEnv : Env :=
  { testEnv with resolveCollection := fun _ => [] }


/-! ### Helper lemmas -/

/-- The mosaic branch of lines 52-56: collection, server-side scale of the
first (unfiltered) element, and the hard-coded geographic crs. -/
theorem resolveImage_true (env : Env) (addrS : String) :
    resolveImage env addrS true
      = .ok (EEImage.mosaic addrS, ScaleArg.server (env.resolveCollection addrS).head?,
          some "EPSG:4326") := rfl

/-- The single-image branch of lines 58-61 under a successful remote
round-trip: plain image, client-side native scale, no crs. -/
theorem resolveImage_false (env : Env) (addrS : String) (n : Int)
    (h : env.nominalScale (EEImage.asset addrS) = .ok n) :
    resolveImage env addrS false
      = .ok (EEImage.asset addrS, ScaleArg.client n, none) := by
  simp [resolveImage, h]

/-- With no caller-supplied path the generated location is
`join (join home "Downloads") (prefix_now ext)` and no directory is made. -/
theorem resolveOutputPath_none (env : Env) ( image_pfx : String) (ext : String) :
    resolveOutputPath env image_pfx ext none
      = .ok (osPathJoin (osPathJoin env.home "Downloads")
          ( image_pfx ++ "_" ++ env.now ++ ext), []) := rfl

/-- With a caller-supplied path whose (nonempty) parent does not exist, the
parent is created and the path is used as given. -/
theorem resolveOutputPath_mkdir (env : Env) ( image_pfx : String) (ext : String) (p : String)
    (hne : posixDirname p ≠ "") (hex : env.pathExists (posixDirname p) = false) :
    resolveOutputPath env image_pfx ext (some p) = .ok (p, [posixDirname p]) := by
  simp [resolveOutputPath, osPathExists, osMakedirs, hne, hex]

/-- With a caller-supplied path that has no directory component,
`os.path.exists("")` is false and `os.makedirs("")` raises. -/
theorem resolveOutputPath_bare (env : Env) ( image_pfx : String) (ext : String) (p : String)
    (h0 : posixDirname p = "") :
    resolveOutputPath env image_pfx ext (some p) = .error mkdirEmptyErr := by
  simp [resolveOutputPath, osPathExists, osMakedirs, h0]

/-- A successful `geemap.download_ee_image` call receives the arguments
verbatim. -/
theorem callDownloadEEImage_ok_inv (image : EEImage) (fn : String) (region : Geometry)
    (crs : Option String) (scale : ScaleArg) (kw : List (String × String)) (call : DownloadCall)
    (h : callDownloadEEImage image fn region crs scale kw = .ok call) :
    call = ⟨image, fn, region, crs, scale, kw⟩ := by
  unfold callDownloadEEImage at h
  cases hK : duplicateKw downloadEEImageKeys kw with
  | some k => rw [hK] at h; simp at h
  | none => rw [hK] at h; simp only [Except.ok.injEq] at h; exact h.symm

/-- A successful `geemap.download_ee_image_collection` call receives the
arguments verbatim. -/
theorem callDownloadEECollection_ok_inv (col : List EEImage) (od : String) (region : Geometry)
    (scale : Int) (kw : List (String × String)) (call : CollectionCall)
    (h : callDownloadEECollection col od region scale kw = .ok call) :
    call = ⟨col, od, region, scale, kw⟩ := by
  unfold callDownloadEECollection at h
  cases hK : duplicateKw downloadEECollectionKeys kw with
  | some k => rw [hK] at h; simp at h
  | none => rw [hK] at h; simp only [Except.ok.injEq] at h; exact h.symm

/-- Run of `download_image` when resolving the image fails. -/
theorem download_image_eq_resolveErr (env : Env) (addr : PyVal) (c : Bool) (roi : Geometry)
    (p : Option String) (m : Bool) (sr : Option Int) (kw : List (String × String)) (e : Err)
    (hR : resolveImage env (pyStr addr) m = .error e) :
    download_image env addr c roi p m sr kw
      = ⟨.error e, [⟨env.now, errText e, pyStr addr⟩], []⟩ := by
  unfold download_image
  dsimp only
  rw [hR]

/-- Run of `download_image` when the image resolves but the output-path step
fails. -/
theorem download_image_eq_pathErr (env : Env) (addr : PyVal) (c : Bool) (roi : Geometry)
    (p : Option String) (m : Bool) (sr : Option Int) (kw : List (String × String))
    (i0 : EEImage) (s0 : ScaleArg) (cr : Option String) (e : Err)
    (hR : resolveImage env (pyStr addr) m = .ok (i0, s0, cr))
    (hO : resolveOutputPath env (pySplitSlashHead (pyStr addr)) ".tif" p = .error e) :
    download_image env addr c roi p m sr kw
      = ⟨.error e, [⟨env.now, errText e, pyStr addr⟩], []⟩ := by
  unfold download_image
  dsimp only
  rw [hR]
  dsimp only
  rw [hO]

/-- Run of `download_image` when everything resolves but the downloader call
raises (duplicate keyword). -/
theorem download_image_eq_callErr (env : Env) (addr : PyVal) (c : Bool) (roi : Geometry)
    (p : Option String) (m : Bool) (sr : Option Int) (kw : List (String × String))
    (i0 : EEImage) (s0 : ScaleArg) (cr : Option String) (out : String) (ops : List String)
    (e : Err)
    (hR : resolveImage env (pyStr addr) m = .ok (i0, s0, cr))
    (hO : resolveOutputPath env (pySplitSlashHead (pyStr addr)) ".tif" p = .ok (out, ops))
    (hC : callDownloadEEImage (if c then EEImage.clip i0 roi else i0) out roi cr s0 kw
      = .error e) :
    download_image env addr c roi p m sr kw
      = ⟨.error e, [⟨env.now, errText e, pyStr addr⟩], ops⟩ := by
  unfold download_image
  dsimp only
  rw [hR]
  dsimp only
  rw [hO]
  dsimp only
  rw [hC]

/-- Fully successful run of `download_image`. -/
theorem download_image_eq_success (env : Env) (addr : PyVal) (c : Bool) (roi : Geometry)
    (p : Option String) (m : Bool) (sr : Option Int) (kw : List (String × String))
    (i0 : EEImage) (s0 : ScaleArg) (cr : Option String) (out : String) (ops : List String)
    (call : DownloadCall)
    (hR : resolveImage env (pyStr addr) m = .ok (i0, s0, cr))
    (hO : resolveOutputPath env (pySplitSlashHead (pyStr addr)) ".tif" p = .ok (out, ops))
    (hC : callDownloadEEImage (if c then EEImage.clip i0 roi else i0) out roi cr s0 kw
      = .ok call) :
    download_image env addr c roi p m sr kw = ⟨.ok call, [], ops⟩ := by
  unfold download_image
  dsimp only
  rw [hR]
  dsimp only
  rw [hO]
  dsimp only
  rw [hC]

/-- The filtered collection of lines 129-131. -/
def filteredCollection (env : Env) (addrS : String) (roi : Geometry)
    (start_date end_date : String) : List EEImage :=
  ((env.resolveCollection addrS).filter (fun i => env.inBounds i roi)).filter
    (fun i => env.inDate i start_date end_date)

/-- Run of `download_image_collection` when the address has no `.split`
(line 125 runs before the `str(...)` conversion). -/
theorem download_image_collection_eq_splitErr (env : Env) (addr : PyVal)
    (sd ed : String) (p : Option String) (roi : Geometry) (cb mb : Bool)
    (kw : List (String × String)) (e : Err)
    (hP : pyValSplitSlashHead addr = .error e) :
    download_image_collection env addr sd ed p roi cb mb kw
      = ⟨.error e, [⟨env.now, errText e, pyStr addr⟩], []⟩ := by
  unfold download_image_collection
  dsimp only
  rw [hP]

/-- Run of `download_image_collection` when reading the nominal scale off
the filtered collection's first element fails. -/
theorem download_image_collection_eq_scaleErr (env : Env) (addr : PyVal)
    (sd ed : String) (p : Option String) (roi : Geometry) (cb mb : Bool)
    (kw : List (String × String)) (pfx0 : String) (e : Err)
    (hP : pyValSplitSlashHead addr = .ok pfx0)
    (hS : firstNominalScaleGetInfo env (filteredCollection env (pyStr addr) roi sd ed)
      = .error e) :
    download_image_collection env addr sd ed p roi cb mb kw
      = ⟨.error e, [⟨env.now, errText e, pyStr addr⟩], []⟩ := by
  unfold download_image_collection
  dsimp only
  rw [hP]
  dsimp only
  rw [filteredCollection] at hS
  rw [hS]

/-- Run of `download_image_collection` when the output-path step fails. -/
theorem download_image_collection_eq_pathErr (env : Env) (addr : PyVal)
    (sd ed : String) (p : Option String) (roi : Geometry) (cb mb : Bool)
    (kw : List (String × String)) (pfx0 : String) (n : Int) (e : Err)
    (hP : pyValSplitSlashHead addr = .ok pfx0)
    (hS : firstNominalScaleGetInfo env (filteredCollection env (pyStr addr) roi sd ed)
      = .ok n)
    (hO : resolveOutputPath env pfx0 "" p = .error e) :
    download_image_collection env addr sd ed p roi cb mb kw
      = ⟨.error e, [⟨env.now, errText e, pyStr addr⟩], []⟩ := by
  unfold download_image_collection
  dsimp only
  rw [hP]
  dsimp only
  rw [filteredCollection] at hS
  rw [hS]
  dsimp only
  rw [hO]

/-- Run of `download_image_collection` when the downloader call raises
(duplicate keyword). -/
theorem download_image_collection_eq_callErr (env : Env) (addr : PyVal)
    (sd ed : String) (p : Option String) (roi : Geometry) (cb mb : Bool)
    (kw : List (String × String)) (pfx0 : String) (n : Int) (out : String)
    (ops : List String) (e : Err)
    (hP : pyValSplitSlashHead addr = .ok pfx0)
    (hS : firstNominalScaleGetInfo env (filteredCollection env (pyStr addr) roi sd ed)
      = .ok n)
    (hO : resolveOutputPath env pfx0 "" p = .ok (out, ops))
    (hC : callDownloadEECollection
      ((filteredCollection env (pyStr addr) roi sd ed).map (fun image => EEImage.clip image roi))
      out roi n kw = .error e) :
    download_image_collection env addr sd ed p roi cb mb kw
      = ⟨.error e, [⟨env.now, errText e, pyStr addr⟩], ops⟩ := by
  unfold download_image_collection
  dsimp only
  rw [hP]
  dsimp only
  rw [filteredCollection] at hS
  rw [hS]
  dsimp only
  rw [hO]
  dsimp only
  rw [if_pos rfl]
  rw [filteredCollection] at hC
  rw [hC]

/-- Fully successful run of `download_image_collection`: note the clip map
is applied regardless of the `clip` argument `cb`, because the nested
function definition shadows it. -/
theorem download_image_collection_eq_success (env : Env) (addr : PyVal)
    (sd ed : String) (p : Option String) (roi : Geometry) (cb mb : Bool)
    (kw : List (String × String)) (pfx0 : String) (n : Int) (out : String)
    (ops : List String) (call : CollectionCall)
    (hP : pyValSplitSlashHead addr = .ok pfx0)
    (hS : firstNominalScaleGetInfo env (filteredCollection env (pyStr addr) roi sd ed)
      = .ok n)
    (hO : resolveOutputPath env pfx0 "" p = .ok (out, ops))
    (hC : callDownloadEECollection
      ((filteredCollection env (pyStr addr) roi sd ed).map (fun image => EEImage.clip image roi))
      out roi n kw = .ok call) :
    download_image_collection env addr sd ed p roi cb mb kw = ⟨.ok call, [], ops⟩ := by
  unfold download_image_collection
  dsimp only
  rw [hP]
  dsimp only
  rw [filteredCollection] at hS
  rw [hS]
  dsimp only
  rw [hO]
  dsimp only
  rw [if_pos rfl]
  rw [filteredCollection] at hC
  rw [hC]

/-- Inversion for a successful `download_image` run: all three stages
succeeded and the downloader received exactly the assembled arguments. -/
theorem download_image_ok_inv (env : Env) (addr : PyVal) (c : Bool) (roi : Geometry)
    (p : Option String) (m : Bool) (sr : Option Int) (kw : List (String × String))
    (dc : DownloadCall)
    (h : (download_image env addr c roi p m sr kw).result = .ok dc) :
    ∃ i0 s0 cr out ops,
      resolveImage env (pyStr addr) m = .ok (i0, s0, cr)
      ∧ resolveOutputPath env (pySplitSlashHead (pyStr addr)) ".tif" p = .ok (out, ops)
      ∧ dc = ⟨(if c then EEImage.clip i0 roi else i0), out, roi, cr, s0, kw⟩ := by
  cases hR : resolveImage env (pyStr addr) m with
  | error e =>
    rw [download_image_eq_resolveErr env addr c roi p m sr kw e hR] at h
    simp at h
  | ok t =>
    obtain ⟨i0, s0, cr⟩ := t
    cases hO : resolveOutputPath env (pySplitSlashHead (pyStr addr)) ".tif" p with
    | error e =>
      rw [download_image_eq_pathErr env addr c roi p m sr kw i0 s0 cr e hR hO] at h
      simp at h
    | ok pr =>
      obtain ⟨out, ops⟩ := pr
      cases hC : callDownloadEEImage (if c then EEImage.clip i0 roi else i0) out roi cr s0 kw with
      | error e =>
        rw [download_image_eq_callErr env addr c roi p m sr kw i0 s0 cr out ops e hR hO hC] at h
        simp at h
      | ok call =>
        rw [download_image_eq_success env addr c roi p m sr kw i0 s0 cr out ops call hR hO hC] at h
        simp only [Except.ok.injEq] at h
        refine ⟨i0, s0, cr, out, ops, rfl, rfl, ?_⟩
        rw [← h]
        exact callDownloadEEImage_ok_inv _ _ _ _ _ _ _ hC

/-- On any exception, `download_image` appends exactly the one log entry
built from the clock, the exception text and the stringified address (the
same exception object is then re-raised). -/
theorem download_image_error_log (env : Env) (addr : PyVal) (c : Bool) (roi : Geometry)
    (p : Option String) (m : Bool) (sr : Option Int) (kw : List (String × String)) (e : Err)
    (h : (download_image env addr c roi p m sr kw).result = .error e) :
    (download_image env addr c roi p m sr kw).log
      = [⟨env.now, errText e, pyStr addr⟩] := by
  cases hR : resolveImage env (pyStr addr) m with
  | error e0 =>
    rw [download_image_eq_resolveErr env addr c roi p m sr kw e0 hR] at h ⊢
    simp only [Except.error.injEq] at h
    rw [h]
  | ok t =>
    obtain ⟨i0, s0, cr⟩ := t
    cases hO : resolveOutputPath env (pySplitSlashHead (pyStr addr)) ".tif" p with
    | error e0 =>
      rw [download_image_eq_pathErr env addr c roi p m sr kw i0 s0 cr e0 hR hO] at h ⊢
      simp only [Except.error.injEq] at h
      rw [h]
    | ok pr =>
      obtain ⟨out, ops⟩ := pr
      cases hC : callDownloadEEImage (if c then EEImage.clip i0 roi else i0) out roi cr s0 kw with
      | error e0 =>
        rw [download_image_eq_callErr env addr c roi p m sr kw i0 s0 cr out ops e0 hR hO hC] at h ⊢
        simp only [Except.error.injEq] at h
        rw [h]
      | ok call =>
        rw [download_image_eq_success env addr c roi p m sr kw i0 s0 cr out ops call hR hO hC] at h
        simp at h

/-- Inversion for a successful `download_image_collection` run: the remote
scale read and the output location resolved, and the downloader received
the clip-mapped filtered collection. -/
theorem download_image_collection_ok_inv (env : Env) (addr : PyVal)
    (sd ed : String) (p : Option String) (roi : Geometry) (cb mb : Bool)
    (kw : List (String × String)) (cc : CollectionCall)
    (h : (download_image_collection env addr sd ed p roi cb mb kw).result = .ok cc) :
    ∃ pfx0 n out ops,
      pyValSplitSlashHead addr = .ok pfx0
      ∧ firstNominalScaleGetInfo env (filteredCollection env (pyStr addr) roi sd ed) = .ok n
      ∧ resolveOutputPath env pfx0 "" p = .ok (out, ops)
      ∧ cc = ⟨(filteredCollection env (pyStr addr) roi sd ed).map
          (fun image => EEImage.clip image roi), out, roi, n, kw⟩ := by
  cases hP : pyValSplitSlashHead addr with
  | error e =>
    rw [download_image_collection_eq_splitErr env addr sd ed p roi cb mb kw e hP] at h
    simp at h
  | ok pfx0 =>
    cases hS : firstNominalScaleGetInfo env (filteredCollection env (pyStr addr) roi sd ed) with
    | error e =>
      rw [download_image_collection_eq_scaleErr env addr sd ed p roi cb mb kw pfx0 e hP hS] at h
      simp at h
    | ok n =>
      cases hO : resolveOutputPath env pfx0 "" p with
      | error e =>
        rw [download_image_collection_eq_pathErr env addr sd ed p roi cb mb kw pfx0 n e
            hP hS hO] at h
        simp at h
      | ok pr =>
        obtain ⟨out, ops⟩ := pr
        cases hC : callDownloadEECollection
            ((filteredCollection env (pyStr addr) roi sd ed).map
              (fun image => EEImage.clip image roi)) out roi n kw with
        | error e =>
          rw [download_image_collection_eq_callErr env addr sd ed p roi cb mb kw pfx0 n out ops e
              hP hS hO hC] at h
          simp at h
        | ok call =>
          rw [download_image_collection_eq_success env addr sd ed p roi cb mb kw pfx0 n out ops
              call hP hS hO hC] at h
          simp only [Except.ok.injEq] at h
          refine ⟨pfx0, n, out, ops, rfl, rfl, hO, ?_⟩
          rw [← h]
          exact callDownloadEECollection_ok_inv _ _ _ _ _ _ hC

/-- On any exception, `download_image_collection` appends exactly the one
log entry built from the clock, the exception text and the stringified
address (the same exception object is then re-raised). -/
theorem download_image_collection_error_log (env : Env) (addr : PyVal)
    (sd ed : String) (p : Option String) (roi : Geometry) (cb mb : Bool)
    (kw : List (String × String)) (e : Err)
    (h : (download_image_collection env addr sd ed p roi cb mb kw).result = .error e) :
    (download_image_collection env addr sd ed p roi cb mb kw).log
      = [⟨env.now, errText e, pyStr addr⟩] := by
  cases hP : pyValSplitSlashHead addr with
  | error e0 =>
    rw [download_image_collection_eq_splitErr env addr sd ed p roi cb mb kw e0 hP] at h ⊢
    simp only [Except.error.injEq] at h
    rw [h]
  | ok pfx0 =>
    cases hS : firstNominalScaleGetInfo env (filteredCollection env (pyStr addr) roi sd ed) with
    | error e0 =>
      rw [download_image_collection_eq_scaleErr env addr sd ed p roi cb mb kw pfx0 e0 hP hS] at h ⊢
      simp only [Except.error.injEq] at h
      rw [h]
    | ok n =>
      cases hO : resolveOutputPath env pfx0 "" p with
      | error e0 =>
        rw [download_image_collection_eq_pathErr env addr sd ed p roi cb mb kw pfx0 n e0
            hP hS hO] at h ⊢
        simp only [Except.error.injEq] at h
        rw [h]
      | ok pr =>
        obtain ⟨out, ops⟩ := pr
        cases hC : callDownloadEECollection
            ((filteredCollection env (pyStr addr) roi sd ed).map
              (fun image => EEImage.clip image roi)) out roi n kw with
        | error e0 =>
          rw [download_image_collection_eq_callErr env addr sd ed p roi cb mb kw pfx0 n out ops e0
              hP hS hO hC] at h ⊢
          simp only [Except.error.injEq] at h
          rw [h]
        | ok call =>
          rw [download_image_collection_eq_success env addr sd ed p roi cb mb kw pfx0 n out ops
              call hP hS hO hC] at h
          simp at h

/-- `os.path.join a b` inserts exactly one separator when `b` is relative,
`a` is nonempty and `a` has no trailing slash. -/
theorem osPathJoin_eq_sep (a b : String) (hb : b.toList.head? ≠ some '/')
    (ha0 : a ≠ "") (ha : a.toList.getLast? ≠ some '/') :
    osPathJoin a b = a ++ "/" ++ b := by
  unfold osPathJoin
  rw [if_neg hb, if_neg (show ¬(a = "" ∨ a.toList.getLast? = some '/') from
    fun h => h.elim ha0 ha)]

/-- `str(Path.home() / "Downloads")` for a sane home directory. -/
theorem osPathJoin_home_downloads (x : String) (h0 : x ≠ "")
    (h1 : x.toList.getLast? ≠ some '/') :
    osPathJoin x "Downloads" = x ++ "/Downloads" := by
  rw [osPathJoin_eq_sep x "Downloads" (by decide) h0 h1, String.append_assoc]
  rfl

/-- Appending the literal downloads component never yields the empty path. -/
theorem append_downloads_ne_empty (x : String) : x ++ "/Downloads" ≠ "" := by
  intro h
  have h2 := congrArg String.data h
  rw [String.data_append] at h2
  rcases List.append_eq_nil.mp h2 with ⟨h3, h4⟩
  exact absurd h4 (by decide)

/-- The downloads directory never ends in a separator. -/
theorem getLast_append_downloads (x : String) :
    (x ++ "/Downloads").toList.getLast? = some 's' := by
  show (x.data ++ ("/Downloads" : String).data).getLast? = some 's'
  rw [List.getLast?_append]
  have h : ("/Downloads" : String).data.getLast? = some 's' := by decide
  rw [h, Option.or_some]

/-- A generated file name `<prefix>_<now><ext>` never starts with a
separator, because the prefix stops before the first `/` and is followed by
an underscore. -/
theorem head_generated_name (s t ext : String) :
    (pySplitSlashHead s ++ "_" ++ t ++ ext).toList.head? ≠ some '/' := by
  show ((((s.toList.takeWhile (fun c => c ≠ '/')) ++ ("_" : String).data) ++ t.data)
      ++ ext.data).head? ≠ some '/'
  rw [List.append_assoc, List.append_assoc, List.head?_append]
  cases hT : s.toList.takeWhile (fun c => c ≠ '/') with
  | nil =>
    have h1 : ("_" : String).data = ['_'] := rfl
    simp only [List.head?_nil, Option.none_or, h1, List.cons_append, List.head?_cons]
    decide
  | cons c cs =>
    have hc : c ∈ s.toList.takeWhile (fun c => c ≠ '/') := by
      rw [hT]; exact List.mem_cons_self c cs
    have hc2 := List.mem_takeWhile_imp hc
    simp only [List.head?_cons, Option.or_some]
    simp only [decide_eq_true_eq] at hc2
    intro h
    exact hc2 (Option.some.inj h)

/-- The whole default-location computation of lines 66-68: for a sane home
directory the generated path is literally
`<home>/Downloads/<prefix>_<now><ext>`. -/
theorem osPathJoin_downloads_file (hm s t ext : String)
    (h0 : hm ≠ "") (h1 : hm.toList.getLast? ≠ some '/') :
    osPathJoin (osPathJoin hm "Downloads") (pySplitSlashHead s ++ "_" ++ t ++ ext)
      = hm ++ "/Downloads/" ++ pySplitSlashHead s ++ "_" ++ t ++ ext := by
  rw [osPathJoin_home_downloads hm h0 h1]
  rw [osPathJoin_eq_sep _ _ (head_generated_name s t ext) (append_downloads_ne_empty hm)
      (by rw [getLast_append_downloads]; decide)]
  simp only [String.append_assoc]
  rw [← String.append_assoc "/Downloads" "/"]
  rfl

/-! ### Claims -/

/-- C1 (code bug evidence): with `clip=False` the collection handed to
`geemap.download_ee_image_collection` is still the clip-mapped filtered
collection — the nested `def clip(image)` shadows the boolean parameter, so
the `if clip:` test always sees a truthy function object — and the run is
identical to the `clip=True` run. -/
theorem c1_clip_false_still_clips :
    (download_image_collection testEnv (.str "COL/A") "2020-01-01" "2020-02-01"
        (some "/tmp/out") nepalBoundary false false []).result
      = .ok ⟨[EEImage.clip (EEImage.asset "IMG0") nepalBoundary], "/tmp/out",
          nepalBoundary, 30, []⟩
    ∧ [EEImage.clip (EEImage.asset "IMG0") nepalBoundary] ≠ [EEImage.asset "IMG0"]
    ∧ download_image_collection testEnv (.str "COL/A") "2020-01-01" "2020-02-01"
        (some "/tmp/out") nepalBoundary false false []
      = download_image_collection testEnv (.str "COL/A") "2020-01-01" "2020-02-01"
        (some "/tmp/out") nepalBoundary true false [] :=
  ⟨rfl, by decide, rfl⟩

/-- C2 counterexample: a caller-supplied `spatial_resolution` of 42 is not
the scale passed downstream; the recomputed native nominal scale (30) is. -/
theorem c2_spatial_resolution_ignored_cex :
    (download_image testEnv (.str "A/B") true nepalBoundary (some "/tmp/o.tif")
        false (some 42) []).result
      = .ok ⟨EEImage.clip (EEImage.asset "A/B") nepalBoundary, "/tmp/o.tif",
          nepalBoundary, none, .client 30, []⟩
    ∧ ScaleArg.client 30 ≠ ScaleArg.client 42 :=
  ⟨rfl, by decide⟩

/-- C2 (amended): `download_image` ignores the caller-supplied
`spatial_resolution` entirely — the run is identical for any two override
values, because lines 54 and 60 both rebind the local — and on a successful
non-mosaic run the scale passed downstream is the asset's native nominal
scale. -/
theorem c2_scale_always_native (env : Env) (addr : PyVal) (c : Bool) (roi : Geometry)
    (p : Option String) (m : Bool) (sr sr2 : Option Int) (kw : List (String × String)) :
    download_image env addr c roi p m sr kw = download_image env addr c roi p m sr2 kw
    ∧ (∀ n dc, env.nominalScale (EEImage.asset (pyStr addr)) = .ok n →
        (download_image env addr c roi p false sr kw).result = .ok dc →
        dc.scale = .client n) := by
  constructor
  · rfl
  · intro n dc hN hres
    obtain ⟨i0, s0, cr, out, ops, hR, hO, hdc⟩ :=
      download_image_ok_inv env addr c roi p false sr kw dc hres
    rw [resolveImage_false env (pyStr addr) n hN] at hR
    simp only [Except.ok.injEq, Prod.mk.injEq] at hR
    rw [hdc]
    exact hR.2.1.symm

/-- Witness for the amended C2 at a concrete input. -/
def c2Call : DownloadCall :=
  ⟨EEImage.clip (EEImage.asset "A/B") nepalBoundary, "/tmp/o.tif", nepalBoundary, none,
    .client 30, []⟩

/-- C2 witness: the amended statement instantiated at `testEnv`. -/
theorem c2_scale_always_native_witness :
    testEnv.nominalScale (EEImage.asset (pyStr (.str "A/B"))) = .ok 30
    ∧ (download_image testEnv (.str "A/B") true nepalBoundary (some "/tmp/o.tif")
        false (some 42) []).result = .ok c2Call
    ∧ c2Call.scale = .client 30 :=
  ⟨rfl, rfl, (c2_scale_always_native testEnv (.str "A/B") true nepalBoundary
    (some "/tmp/o.tif") false (some 42) (some 7) []).2 30 c2Call rfl rfl⟩

/-- C3 (code bug evidence): passing the documented pass-through option
`crs` collides with the explicit `crs=crs` keyword at the call site, so the
call raises `TypeError` (logged and re-raised) instead of forwarding the
option to the downloader. -/
theorem c3_crs_kwarg_duplicate_typeerror :
    (download_image testEnv (.str "A/B") true nepalBoundary (some "/tmp/o.tif")
        false none [("crs", "EPSG:32645")]).result
      = .error (.typeError "download_ee_image got multiple values for keyword argument crs")
    ∧ (download_image testEnv (.str "A/B") true nepalBoundary (some "/tmp/o.tif")
        false none [("crs", "EPSG:32645")]).log
      = [⟨"2026-01-01_00-00-00",
          "download_ee_image got multiple values for keyword argument crs", "A/B"⟩] :=
  ⟨rfl, rfl⟩

/-- C4: the crs argument passed to the external downloader is exactly the
string EPSG:4326 when `mosaic_collection` is set and None otherwise. -/
theorem c4_crs_forced_by_mosaic_flag (env : Env) (addr : PyVal) (c : Bool) (roi : Geometry)
    (p : Option String) (m : Bool) (sr : Option Int) (kw : List (String × String))
    (dc : DownloadCall)
    (h : (download_image env addr c roi p m sr kw).result = .ok dc) :
    dc.crs = if m then some "EPSG:4326" else none := by
  obtain ⟨i0, s0, cr, out, ops, hR, hO, hdc⟩ :=
    download_image_ok_inv env addr c roi p m sr kw dc h
  rw [hdc]
  show cr = if m then some "EPSG:4326" else none
  cases m with
  | true =>
    rw [resolveImage_true] at hR
    simp only [Except.ok.injEq, Prod.mk.injEq] at hR
    exact hR.2.2.symm
  | false =>
    cases hN : env.nominalScale (EEImage.asset (pyStr addr)) with
    | error e =>
      rw [show resolveImage env (pyStr addr) false = .error e from by
        simp [resolveImage, hN]] at hR
      simp at hR
    | ok n =>
      rw [resolveImage_false env (pyStr addr) n hN] at hR
      simp only [Except.ok.injEq, Prod.mk.injEq] at hR
      exact hR.2.2.symm

/-- The download call of the C4 witness run. -/
def c4Call : DownloadCall :=
  ⟨EEImage.clip (EEImage.mosaic "A/B") nepalBoundary, "/tmp/o.tif", nepalBoundary,
    some "EPSG:4326", .server (some (EEImage.asset "IMG0")), []⟩

/-- C4 witness: a concrete mosaic run carrying crs EPSG:4326. -/
theorem c4_crs_forced_by_mosaic_flag_witness :
    (download_image testEnv (.str "A/B") true nepalBoundary (some "/tmp/o.tif")
        true none []).result = .ok c4Call
    ∧ c4Call.crs = (if true then some "EPSG:4326" else none) :=
  ⟨rfl, c4_crs_forced_by_mosaic_flag testEnv (.str "A/B") true nepalBoundary
    (some "/tmp/o.tif") true none [] c4Call rfl⟩

/-- C5: with `output_path` omitted the filename handed downstream is
`<home>/Downloads/<prefix>_<now>.tif`, where the prefix is the part of the
stringified asset reference before its first `/` and `<now>` is the clock
reading in `%Y-%m-%d_%H-%M-%S` format (for a home path that is nonempty and
has no trailing separator). -/
theorem c5_default_output_path (env : Env) (addr : PyVal) (c : Bool) (roi : Geometry)
    (m : Bool) (sr : Option Int) (kw : List (String × String)) (dc : DownloadCall)
    (h0 : env.home ≠ "") (h1 : env.home.toList.getLast? ≠ some '/')
    (h : (download_image env addr c roi none m sr kw).result = .ok dc) :
    dc.filename = env.home ++ "/Downloads/" ++ pySplitSlashHead (pyStr addr)
      ++ "_" ++ env.now ++ ".tif" := by
  obtain ⟨i0, s0, cr, out, ops, hR, hO, hdc⟩ :=
    download_image_ok_inv env addr c roi none m sr kw dc h
  rw [resolveOutputPath_none] at hO
  simp only [Except.ok.injEq, Prod.mk.injEq] at hO
  rw [hdc]
  show out = _
  rw [← hO.1]
  rw [osPathJoin_downloads_file env.home (pyStr addr) env.now ".tif" h0 h1]

/-- The download call of the C5 witness run. -/
def c5Call : DownloadCall :=
  ⟨EEImage.clip (EEImage.asset "A/B") nepalBoundary,
    "/home/u/Downloads/A_2026-01-01_00-00-00.tif", nepalBoundary, none, .client 30, []⟩

/-- C5 witness: the generated default path at a concrete input. -/
theorem c5_default_output_path_witness :
    testEnv.home ≠ "" ∧ testEnv.home.toList.getLast? ≠ some '/'
    ∧ (download_image testEnv (.str "A/B") true nepalBoundary none false none []).result
      = .ok c5Call
    ∧ c5Call.filename = testEnv.home ++ "/Downloads/"
      ++ pySplitSlashHead (pyStr (.str "A/B")) ++ "_" ++ testEnv.now ++ ".tif" :=
  ⟨by decide, by decide, rfl,
    c5_default_output_path testEnv (.str "A/B") true nepalBoundary false none [] c5Call
      (by decide) (by decide) rfl⟩

/-- C6: any exception in either fetch function appends exactly one log
entry — carrying the clock timestamp and the stringified offending
reference — and the result carries the very same exception, re-raised
without suppression, retry or substitution. -/
theorem c6_log_once_and_reraise (env : Env) (addr addr2 : PyVal) (c cb : Bool)
    (roi roi2 : Geometry) (p p2 : Option String) (m mb : Bool) (sr : Option Int)
    (kw kw2 : List (String × String)) (sd ed : String) :
    (∀ e, (download_image env addr c roi p m sr kw).result = .error e →
      (download_image env addr c roi p m sr kw).log = [⟨env.now, errText e, pyStr addr⟩])
    ∧ (∀ e, (download_image_collection env addr2 sd ed p2 roi2 cb mb kw2).result = .error e →
      (download_image_collection env addr2 sd ed p2 roi2 cb mb kw2).log
        = [⟨env.now, errText e, pyStr addr2⟩]) :=
  ⟨fun e h => download_image_error_log env addr c roi p m sr kw e h,
   fun e h => download_image_collection_error_log env addr2 sd ed p2 roi2 cb mb kw2 e h⟩

/-- The exception of the C6 witness image run. -/
def c6ImageErr : Err :=
  .typeError "download_ee_image got multiple values for keyword argument crs"

/-- C6 witness: a failing image run and a failing collection run, each with
exactly its one log entry. -/
theorem c6_log_once_and_reraise_witness :
    (download_image testEnv (.str "A/B") true nepalBoundary (some "/tmp/o.tif")
        false none [("crs", "x")]).result = .error c6ImageErr
    ∧ (download_image testEnv (.str "A/B") true nepalBoundary (some "/tmp/o.tif")
        false none [("crs", "x")]).log = [⟨testEnv.now, errText c6ImageErr, "A/B"⟩]
    ∧ (download_image_collection emptyEnv (.str "COL/A") "2020-01-01" "2020-02-01"
        (some "/tmp/out") nepalBoundary true false []).result = .error emptyCollectionErr
    ∧ (download_image_collection emptyEnv (.str "COL/A") "2020-01-01" "2020-02-01"
        (some "/tmp/out") nepalBoundary true false []).log
      = [⟨emptyEnv.now, errText emptyCollectionErr, "COL/A"⟩] :=
  ⟨rfl,
   (c6_log_once_and_reraise testEnv (.str "A/B") (.str "A/B") true true nepalBoundary
     nepalBoundary (some "/tmp/o.tif") (some "/tmp/o.tif") false false none
     [("crs", "x")] [("crs", "x")] "" "").1 c6ImageErr rfl,
   rfl,
   (c6_log_once_and_reraise emptyEnv (.str "COL/A") (.str "COL/A") true true nepalBoundary
     nepalBoundary (some "/tmp/out") (some "/tmp/out") true false none [] []
     "2020-01-01" "2020-02-01").2 emptyCollectionErr rfl⟩

/-- C7: an empty filtered collection makes the fetch error out while
reading the nominal scale off the absent first element; no directory is
created and no download call is produced. -/
theorem c7_empty_collection_raises (env : Env) (s2 sd ed : String)
    (p : Option String) (roi : Geometry) (cb mb : Bool) (kw : List (String × String))
    (hempty : filteredCollection env s2 roi sd ed = []) :
    (download_image_collection env (.str s2) sd ed p roi cb mb kw).result
      = .error emptyCollectionErr
    ∧ (download_image_collection env (.str s2) sd ed p roi cb mb kw).fsOps = [] := by
  have hS : firstNominalScaleGetInfo env (filteredCollection env (pyStr (.str s2)) roi sd ed)
      = .error emptyCollectionErr := by
    show firstNominalScaleGetInfo env (filteredCollection env s2 roi sd ed) = _
    rw [hempty]
    rfl
  rw [download_image_collection_eq_scaleErr env (.str s2) sd ed p roi cb mb kw
    (pySplitSlashHead s2) emptyCollectionErr rfl hS]
  exact ⟨rfl, rfl⟩

/-- C7 witness: the empty environment instantiation. -/
theorem c7_empty_collection_raises_witness :
    filteredCollection emptyEnv "COL/A" nepalBoundary "2020-01-01" "2020-02-01" = []
    ∧ (download_image_collection emptyEnv (.str "COL/A") "2020-01-01" "2020-02-01"
        (some "/tmp/out") nepalBoundary true false []).result = .error emptyCollectionErr :=
  ⟨rfl, (c7_empty_collection_raises emptyEnv "COL/A" "2020-01-01" "2020-02-01"
    (some "/tmp/out") nepalBoundary true false [] rfl).1⟩

/-- C8: for both fetch functions, a supplied output path whose (nonempty)
parent directory does not exist gets that parent created by `os.makedirs`
(recursive) as the only filesystem operation of the run; it happens before
the downloader call, which is the final step. -/
theorem c8_parent_created (env : Env) (addr : PyVal) (c : Bool) (roi roi2 : Geometry)
    (m mb cb : Bool) (sr : Option Int) (kw kw2 : List (String × String))
    (p p2 s2 sd ed : String) (t : EEImage × ScaleArg × Option String) (n : Int)
    (hres : resolveImage env (pyStr addr) m = .ok t)
    (hp : posixDirname p ≠ "") (hex : env.pathExists (posixDirname p) = false)
    (hscale : firstNominalScaleGetInfo env (filteredCollection env s2 roi2 sd ed) = .ok n)
    (hp2 : posixDirname p2 ≠ "") (hex2 : env.pathExists (posixDirname p2) = false) :
    (download_image env addr c roi (some p) m sr kw).fsOps = [posixDirname p]
    ∧ (download_image_collection env (.str s2) sd ed (some p2) roi2 cb mb kw2).fsOps
      = [posixDirname p2] := by
  obtain ⟨i0, s0, cr⟩ := t
  constructor
  · have hO := resolveOutputPath_mkdir env (pySplitSlashHead (pyStr addr)) ".tif" p hp hex
    cases hC : callDownloadEEImage (if c then EEImage.clip i0 roi else i0) p roi cr s0 kw with
    | error e =>
      rw [download_image_eq_callErr env addr c roi (some p) m sr kw i0 s0 cr p
        [posixDirname p] e hres hO hC]
    | ok call =>
      rw [download_image_eq_success env addr c roi (some p) m sr kw i0 s0 cr p
        [posixDirname p] call hres hO hC]
  · have hS2 : firstNominalScaleGetInfo env
        (filteredCollection env (pyStr (.str s2)) roi2 sd ed) = .ok n := hscale
    have hO := resolveOutputPath_mkdir env (pySplitSlashHead s2) "" p2 hp2 hex2
    cases hC : callDownloadEECollection
        ((filteredCollection env (pyStr (.str s2)) roi2 sd ed).map
          (fun image => EEImage.clip image roi2)) p2 roi2 n kw2 with
    | error e =>
      rw [download_image_collection_eq_callErr env (.str s2) sd ed (some p2) roi2 cb mb kw2
        (pySplitSlashHead s2) n p2 [posixDirname p2] e rfl hS2 hO hC]
    | ok call =>
      rw [download_image_collection_eq_success env (.str s2) sd ed (some p2) roi2 cb mb kw2
        (pySplitSlashHead s2) n p2 [posixDirname p2] call rfl hS2 hO hC]

/-- C8 witness: both functions at concrete inputs under an environment
where no path exists. -/
theorem c8_parent_created_witness :
    resolveImage mkdirEnv (pyStr (.str "A/B")) false
      = .ok (EEImage.asset "A/B", ScaleArg.client 30, none)
    ∧ posixDirname "/data/out.tif" ≠ ""
    ∧ mkdirEnv.pathExists (posixDirname "/data/out.tif") = false
    ∧ firstNominalScaleGetInfo mkdirEnv
        (filteredCollection mkdirEnv "COL/A" nepalBoundary "2020-01-01" "2020-02-01") = .ok 30
    ∧ posixDirname "/data2/outdir" ≠ ""
    ∧ mkdirEnv.pathExists (posixDirname "/data2/outdir") = false
    ∧ (download_image mkdirEnv (.str "A/B") true nepalBoundary (some "/data/out.tif")
        false none []).fsOps = [posixDirname "/data/out.tif"]
    ∧ (download_image_collection mkdirEnv (.str "COL/A") "2020-01-01" "2020-02-01"
        (some "/data2/outdir") nepalBoundary true false []).fsOps
      = [posixDirname "/data2/outdir"] := by
  have h := c8_parent_created mkdirEnv (.str "A/B") true nepalBoundary nepalBoundary
    false false true none [] [] "/data/out.tif" "/data2/outdir" "COL/A"
    "2020-01-01" "2020-02-01" (EEImage.asset "A/B", ScaleArg.client 30, none) 30
    rfl (by decide) rfl rfl (by decide) rfl
  exact ⟨rfl, by decide, rfl, rfl, by decide, rfl, h.1, h.2⟩

/-- C9: with both the local path and the asset address omitted,
`add_image_to_map` returns a freshly constructed map with no layers (and no
error path exists in that run). -/
theorem c9_empty_map (layer_name : Option String) (kw : List (String × String)) :
    add_image_to_map none none layer_name kw = ⟨[]⟩ := rfl

/-- C10: a bare-filename output path makes `os.path.dirname` return the
empty string, so the existence check fails and `os.makedirs("")` raises
`FileNotFoundError`; the error is logged once and re-raised, no directory
is created and no download call is produced — in both fetch functions —
even though the effective parent (the working directory) exists. -/
theorem c10_bare_output_path_errors (env : Env) (addr : PyVal) (c : Bool)
    (roi roi2 : Geometry) (m mb cb : Bool) (sr : Option Int)
    (kw kw2 : List (String × String)) (p p2 s2 sd ed : String)
    (t : EEImage × ScaleArg × Option String) (n : Int)
    (hres : resolveImage env (pyStr addr) m = .ok t)
    (hp : posixDirname p = "")
    (hscale : firstNominalScaleGetInfo env (filteredCollection env s2 roi2 sd ed) = .ok n)
    (hp2 : posixDirname p2 = "") :
    ((download_image env addr c roi (some p) m sr kw).result = .error mkdirEmptyErr
      ∧ (download_image env addr c roi (some p) m sr kw).log
        = [⟨env.now, errText mkdirEmptyErr, pyStr addr⟩]
      ∧ (download_image env addr c roi (some p) m sr kw).fsOps = [])
    ∧ ((download_image_collection env (.str s2) sd ed (some p2) roi2 cb mb kw2).result
        = .error mkdirEmptyErr
      ∧ (download_image_collection env (.str s2) sd ed (some p2) roi2 cb mb kw2).log
        = [⟨env.now, errText mkdirEmptyErr, pyStr (.str s2)⟩]
      ∧ (download_image_collection env (.str s2) sd ed (some p2) roi2 cb mb kw2).fsOps = []) := by
  obtain ⟨i0, s0, cr⟩ := t
  constructor
  · rw [download_image_eq_pathErr env addr c roi (some p) m sr kw i0 s0 cr mkdirEmptyErr hres
      (resolveOutputPath_bare env (pySplitSlashHead (pyStr addr)) ".tif" p hp)]
    exact ⟨rfl, rfl, rfl⟩
  · have hS2 : firstNominalScaleGetInfo env
        (filteredCollection env (pyStr (.str s2)) roi2 sd ed) = .ok n := hscale
    rw [download_image_collection_eq_pathErr env (.str s2) sd ed (some p2) roi2 cb mb kw2
      (pySplitSlashHead s2) n mkdirEmptyErr rfl hS2
      (resolveOutputPath_bare env (pySplitSlashHead s2) "" p2 hp2)]
    exact ⟨rfl, rfl, rfl⟩

/-- C10 witness: both functions at bare-filename outputs. -/
theorem c10_bare_output_path_errors_witness :
    resolveImage testEnv (pyStr (.str "A/B")) false
      = .ok (EEImage.asset "A/B", ScaleArg.client 30, none)
    ∧ posixDirname "bare.tif" = ""
    ∧ firstNominalScaleGetInfo testEnv
        (filteredCollection testEnv "COL/A" nepalBoundary "2020-01-01" "2020-02-01") = .ok 30
    ∧ posixDirname "bare" = ""
    ∧ (download_image testEnv (.str "A/B") true nepalBoundary (some "bare.tif")
        false none []).result = .error mkdirEmptyErr
    ∧ (download_image_collection testEnv (.str "COL/A") "2020-01-01" "2020-02-01"
        (some "bare") nepalBoundary true false []).result = .error mkdirEmptyErr := by
  have h := c10_bare_output_path_errors testEnv (.str "A/B") true nepalBoundary nepalBoundary
    false false true none [] [] "bare.tif" "bare" "COL/A" "2020-01-01" "2020-02-01"
    (EEImage.asset "A/B", ScaleArg.client 30, none) 30 rfl (by decide) rfl (by decide)
  exact ⟨rfl, by decide, rfl, by decide, h.1.1, h.2.1⟩

end GeeDownload
